import Mathlib

/-!
Verification of the SaaS backend (`src/backend/src/server.ts`).

The backend is a set of Express handlers over a MongoDB collection of user
documents.  We embed the data model and each route handler as a pure Lean
function: the database is a list of user records, each handler takes its
request data together with the current database and returns the HTTP status
(plus any payload) and the new database.  External collaborators (the Stripe
client, signature verification inside `stripe.webhooks.constructEvent`, the
current time used for `createdAt` defaults) are parameters of the handlers,
exactly at the points where the source calls out to them.  A missing or empty
HTTP header/body field is modelled as the empty string, matching the
JavaScript falsiness test `if (!x)` used throughout the source.
-/

/-- An entry of the `uploads` array of `UserSchema` (server.ts lines 23-29):
`fileName`, `transcription`, and a `createdAt` timestamp defaulted at
insertion time. -/
structure UploadEntry where
  fileName : String
  transcription : String
  createdAt : Nat
  deriving Repr, DecidableEq

/-- A user document of `UserSchema` (server.ts lines 21-31): unique
`clerkUserId`, an `uploads` array, and `hasPaid` defaulting to `false`. -/
structure User where
  clerkUserId : String
  uploads : List UploadEntry
  hasPaid : Bool
  deriving Repr, DecidableEq

/-- The user collection: the set of stored documents, in insertion order. -/
abbrev Db := List User

/-- `new User({ clerkUserId })`: schema defaults give an empty `uploads`
array and `hasPaid = false`. -/
def newUser (clerkUserId : String) : User :=
  { clerkUserId := clerkUserId, uploads := [], hasPaid := false }

/-- `User.findOne({ clerkUserId })`: the first stored document whose
`clerkUserId` equals the key, if any. -/
def findOne (key : String) (db : Db) : Option User :=
  db.find? (fun u => u.clerkUserId == key)

/-- `user.save()` on a document obtained from `findOne`: the stored
document(s) with this key are replaced by the updated document. -/
def saveUser (key : String) (u : User) (db : Db) : Db :=
  db.map (fun v => if v.clerkUserId == key then u else v)

/-- `newUser.save()`: a fresh document is inserted into the collection. -/
def insertUser (u : User) (db : Db) : Db :=
  db ++ [u]

/-- `POST /api/users/create` (server.ts lines 66-89).  Body field
`clerkUserId`; absent/empty is falsy.  Returns the HTTP status and the new
database: 400 if the key is missing, 200 (already exists) if a document with
this key is stored, otherwise 201 after inserting a fresh document. -/
def createUser (clerkUserId : String) (db : Db) : Nat × Db :=
  if clerkUserId = "" then (400, db)
  else
    match findOne clerkUserId db with
    | some _ => (200, db)
    | none => (201, insertUser (newUser clerkUserId) db)

/-- `POST /api/webhooks/clerk` (server.ts lines 94-114).  On a
`user.created` event, inserts a fresh document for `data.id` unless one
already exists; always returns 200. -/
def clerkWebhook (eventType : String) (dataId : String) (db : Db) : Nat × Db :=
  if eventType = "user.created" then
    match findOne dataId db with
    | some _ => (200, db)
    | none => (200, insertUser (newUser dataId) db)
  else (200, db)

/-- `POST /api/voice/transcribe` (server.ts lines 116-156).
`clerkUserId` is the `clerk-user-id` header ("" when absent), `file` the
uploaded file's original name (`none` when no file was sent), `now` the
timestamp `Date.now` supplies for the entry's `createdAt` default.
Order of checks in the source: missing key → 401; unknown user → 404;
entitlement (`!user.hasPaid && user.uploads.length >= 2`) → 403; missing
file → 400; otherwise a mock transcription is produced, an entry is pushed
onto `uploads` and the document is saved, returning 200 with the text. -/
def transcribe (clerkUserId : String) (file : Option String) (now : Nat)
    (db : Db) : (Nat × Option String) × Db :=
  if clerkUserId = "" then ((401, none), db)
  else
    match findOne clerkUserId db with
    | none => ((404, none), db)
    | some user =>
      if !user.hasPaid && decide (user.uploads.length ≥ 2) then
        ((403, none), db)
      else
        match file with
        | none => ((400, none), db)
        | some name =>
          let t := "Mock transcription for file: " ++ name
          let user' := { user with
            uploads := user.uploads ++ [⟨name, t, now⟩] }
          ((200, some t), saveUser clerkUserId user' db)

/-- The payload of a Stripe event as used by the webhook handler: the event
type and `session.metadata?.clerkUserId` (`none` when metadata or the key is
absent). -/
structure StripeEvent where
  eventType : String
  metadataClerkUserId : Option String
  deriving Repr, DecidableEq

/-- `POST /api/payment/webhook` (server.ts lines 158-197).
`secretConfigured` models whether `STRIPE_WEBHOOK_SECRET` is a non-empty
string (falsy test on line 166); `event` is the result of
`stripe.webhooks.constructEvent`, `none` when signature verification threw.
No secret → 500; bad signature → 400, nothing processed; on a
`checkout.session.completed` event with a truthy metadata key naming a
stored user, that user's `hasPaid` is set and saved; always 200 after. -/
def paymentWebhook (secretConfigured : Bool) (event : Option StripeEvent)
    (db : Db) : Nat × Db :=
  if !secretConfigured then (500, db)
  else
    match event with
    | none => (400, db)
    | some e =>
      if e.eventType = "checkout.session.completed" then
        match e.metadataClerkUserId with
        | some k =>
          if k = "" then (200, db)
          else
            match findOne k db with
            | some user => (200, saveUser k { user with hasPaid := true } db)
            | none => (200, db)
        | none => (200, db)
      else (200, db)

/-- `POST /api/payment/create-checkout-session` (server.ts lines 199-243).
`clerkUserId` is the `clerk-user-id` header ("" when absent);
`stripeSession` is the outcome of `stripe.checkout.sessions.create`: the
session URL on success, `none` when the provider call threw (caught → 500).
Missing key → 401.  After the session is created, the source looks the user
up and, if found, sets `hasPaid := true` and saves; it then returns 200 with
the session URL. -/
def createCheckoutSession (clerkUserId : String) (stripeSession : Option String)
    (db : Db) : (Nat × Option String) × Db :=
  if clerkUserId = "" then ((401, none), db)
  else
    match stripeSession with
    | none => ((500, none), db)
    | some url =>
      match findOne clerkUserId db with
      | some user =>
        ((200, some url), saveUser clerkUserId { user with hasPaid := true } db)
      | none => ((200, some url), db)


/-- Repeated calls of the transcribe handler by one client: the same key and
file name submitted `n` times in a row.  Returns the HTTP statuses in call
order together with the final database. -/
def runUploads (k : String) (name : String) (now : Nat) :
    Nat → Db → List Nat × Db
  | 0, db => ([], db)
  | n + 1, db =>
    let r := transcribe k (some name) now db
    let rest := runUploads k name now n r.2
    (r.1.1 :: rest.1, rest.2)

/-- `hasPaid` is preserved from `db` to `db'`: every user that is stored
paid in `db` is still stored, and still paid, in `db'`. -/
def paidPreserved (db db' : Db) : Prop :=
  ∀ k u, findOne k db = some u → u.hasPaid = true →
    ∃ u', findOne k db' = some u' ∧ u'.hasPaid = true


/-! ### Store lemmas -/

theorem findOne_id {key : String} {db : Db} {u : User}
    (h : findOne key db = some u) : u.clerkUserId = key := by
  have h' := List.find?_some h
  simpa using h'

theorem findOne_saveUser_same {key : String} {u u' : User} {db : Db}
    (h : findOne key db = some u) (h' : u'.clerkUserId = key) :
    findOne key (saveUser key u' db) = some u' := by
  induction db with
  | nil => simp [findOne] at h
  | cons v vs ih =>
    simp only [findOne, saveUser, List.map_cons] at h ih ⊢
    by_cases hv : (v.clerkUserId == key) = true
    · rw [if_pos hv]
      have hu : (u'.clerkUserId == key) = true := by
        rw [beq_iff_eq]; exact h'
      exact List.find?_cons_of_pos _ hu
    · rw [if_neg hv,
        List.find?_cons_of_neg (p := fun w : User => w.clerkUserId == key) _ hv]
      rw [List.find?_cons_of_neg (p := fun w : User => w.clerkUserId == key) _ hv] at h
      exact ih h

theorem findOne_saveUser_other {k key : String} {u' : User} {db : Db}
    (hne : k ≠ key) (h' : u'.clerkUserId = key) :
    findOne k (saveUser key u' db) = findOne k db := by
  induction db with
  | nil => rfl
  | cons v vs ih =>
    simp only [findOne, saveUser, List.map_cons] at ih ⊢
    by_cases hv : (v.clerkUserId == key) = true
    · rw [if_pos hv]
      have hu : ¬ (u'.clerkUserId == k) = true := by
        rw [beq_iff_eq, h']
        exact fun e => hne e.symm
      have hvk : ¬ (v.clerkUserId == k) = true := by
        rw [beq_iff_eq] at hv ⊢
        rw [hv]
        exact fun e => hne e.symm
      rw [List.find?_cons_of_neg (p := fun w : User => w.clerkUserId == k) _ hu,
        List.find?_cons_of_neg (p := fun w : User => w.clerkUserId == k) _ hvk]
      exact ih
    · rw [if_neg hv]
      by_cases hvk : (v.clerkUserId == k) = true
      · rw [List.find?_cons_of_pos (p := fun w : User => w.clerkUserId == k) _ hvk,
          List.find?_cons_of_pos (p := fun w : User => w.clerkUserId == k) _ hvk]
      · rw [List.find?_cons_of_neg (p := fun w : User => w.clerkUserId == k) _ hvk,
          List.find?_cons_of_neg (p := fun w : User => w.clerkUserId == k) _ hvk]
        exact ih

theorem findOne_insertUser {k : String} {w : User} {db : Db} {u : User}
    (h : findOne k db = some u) : findOne k (insertUser w db) = some u := by
  induction db with
  | nil => simp [findOne] at h
  | cons v vs ih =>
    simp only [findOne, insertUser, List.cons_append] at h ih ⊢
    by_cases hv : (v.clerkUserId == k) = true
    · rw [List.find?_cons_of_pos (p := fun w : User => w.clerkUserId == k) _ hv]
      rw [List.find?_cons_of_pos (p := fun w : User => w.clerkUserId == k) _ hv] at h
      exact h
    · rw [List.find?_cons_of_neg (p := fun w : User => w.clerkUserId == k) _ hv]
      rw [List.find?_cons_of_neg (p := fun w : User => w.clerkUserId == k) _ hv] at h
      exact ih h

theorem saveFun_idem (key : String) (u v : User) :
    (if (if (v.clerkUserId == key) = true then u else v).clerkUserId == key
      then u else (if (v.clerkUserId == key) = true then u else v))
    = (if (v.clerkUserId == key) = true then u else v) := by
  by_cases hv : (v.clerkUserId == key) = true
  · rw [if_pos hv]
    by_cases hu : (u.clerkUserId == key) = true
    · rw [if_pos hu]
    · rw [if_neg hu]
  · rw [if_neg hv, if_neg hv]

theorem saveUser_saveUser (key : String) (u : User) (db : Db) :
    saveUser key u (saveUser key u db) = saveUser key u db := by
  induction db with
  | nil => rfl
  | cons v vs ih =>
    simp only [saveUser, List.map_cons] at ih ⊢
    rw [ih]
    exact congrArg (fun w => w :: _) (saveFun_idem key u v)

/-! ### Handler-step lemmas -/

theorem transcribe_notfound {k : String} (file : Option String) (now : Nat)
    {db : Db} (hk : k ≠ "") (h : findOne k db = none) :
    transcribe k file now db = ((404, none), db) := by
  simp only [transcribe, h]
  rw [if_neg hk]

theorem transcribe_deny {k : String} (file : Option String) (now : Nat)
    {db : Db} {u : User} (hk : k ≠ "") (h : findOne k db = some u)
    (hp : u.hasPaid = false) (hc : 2 ≤ u.uploads.length) :
    transcribe k file now db = ((403, none), db) := by
  have hg : (!u.hasPaid && decide (u.uploads.length ≥ 2)) = true := by
    rw [hp]
    simpa using hc
  simp only [transcribe, h]
  rw [if_neg hk, if_pos hg]

theorem transcribe_nofile {k : String} (now : Nat) {db : Db} {u : User}
    (hk : k ≠ "") (h : findOne k db = some u)
    (hgate : u.hasPaid = true ∨ u.uploads.length < 2) :
    transcribe k none now db = ((400, none), db) := by
  have hg : ¬ (!u.hasPaid && decide (u.uploads.length ≥ 2)) = true := by
    intro hx
    rw [Bool.and_eq_true, Bool.not_eq_true', decide_eq_true_eq] at hx
    rcases hgate with hgp | hgc
    · rw [hgp] at hx
      simp at hx
    · exact absurd hx.2 (Nat.not_le.mpr hgc)
  simp only [transcribe, h]
  rw [if_neg hk, if_neg hg]

theorem transcribe_allow {k : String} (name : String) (now : Nat)
    {db : Db} {u : User} (hk : k ≠ "") (h : findOne k db = some u)
    (hgate : u.hasPaid = true ∨ u.uploads.length < 2) :
    transcribe k (some name) now db =
      ((200, some ("Mock transcription for file: " ++ name)),
       saveUser k
         { u with uploads := u.uploads ++
             [⟨name, "Mock transcription for file: " ++ name, now⟩] } db) := by
  have hg : ¬ (!u.hasPaid && decide (u.uploads.length ≥ 2)) = true := by
    intro hx
    rw [Bool.and_eq_true, Bool.not_eq_true', decide_eq_true_eq] at hx
    rcases hgate with hgp | hgc
    · rw [hgp] at hx
      simp at hx
    · exact absurd hx.2 (Nat.not_le.mpr hgc)
  simp only [transcribe, h]
  rw [if_neg hk, if_neg hg]

theorem paidPreserved_refl (db : Db) : paidPreserved db db :=
  fun _ u hf hp => ⟨u, hf, hp⟩

theorem paidPreserved_insert (w : User) (db : Db) :
    paidPreserved db (insertUser w db) :=
  fun _ u hf hp => ⟨u, findOne_insertUser hf, hp⟩

theorem paidPreserved_save {key : String} {u₀ u' : User} {db : Db}
    (h : findOne key db = some u₀) (hid : u'.clerkUserId = key)
    (himp : u₀.hasPaid = true → u'.hasPaid = true) :
    paidPreserved db (saveUser key u' db) := by
  intro k u hf hp
  by_cases hkk : k = key
  · subst hkk
    have hu : u = u₀ := Option.some.inj (hf.symm.trans h)
    exact ⟨u', findOne_saveUser_same h hid, himp (hu ▸ hp)⟩
  · rw [findOne_saveUser_other hkk hid]
    exact ⟨u, hf, hp⟩

/-! ### Claims -/

/-- C1.  The claim states that a call to the checkout-session initiator
leaves the user's `hasPaid` flag unchanged.  The code contradicts it:
at the failing input — stored user `u1` with `hasPaid = false`, checkout
request for `u1` with a successful provider call — the handler flips
`hasPaid` to `true` at session-initiation time (server.ts lines 231-235),
before any payment confirmation.  The spec (sections 4.4, 8 and 9) calls
this very pattern a consistency bug, so the claim is right and the code is
wrong. -/
theorem C1_checkout_session_sets_hasPaid :
    createCheckoutSession "u1" (some "https://pay.example/s") [newUser "u1"]
      = ((200, some "https://pay.example/s"),
         [{ clerkUserId := "u1", uploads := [], hasPaid := true }]) := by
  rfl

/-- C3.  A payment-webhook request whose signature verification fails
(`stripe.webhooks.constructEvent` throws, modelled by `none`) is answered
400 with the event unprocessed: the database — every user's `hasPaid` and
every other field — is returned unchanged. -/
theorem C3_bad_signature_rejected_without_mutation (db : Db) :
    paymentWebhook true none db = (400, db) := rfl

/-- C5.  User creation is idempotent: when a record with the requested key
already exists, `POST /api/users/create` answers 200 (already exists) and
returns the database untouched, so no duplicate record is produced and the
key still maps to exactly the one stored record. -/
theorem C5_user_create_idempotent (k : String) (db : Db) (u : User)
    (hk : k ≠ "") (h : findOne k db = some u) :
    createUser k db = (200, db) := by
  simp only [createUser, h]
  rw [if_neg hk]

/-- C5 witness: a second create call for `u1` is a 200 no-op. -/
theorem C5_user_create_idempotent_witness :
    createUser "u1" [newUser "u1"] = (200, [newUser "u1"]) :=
  C5_user_create_idempotent "u1" [newUser "u1"] (newUser "u1")
    (by decide) (by rfl)

/-- C6.  When the entitlement gate denies (stored `hasPaid = false` and at
least two uploads), the transcribe handler answers 403 and the database is
returned entirely unchanged — no `UploadEntry` is appended and no save
happens — whatever the file payload is. -/
theorem C6_denied_upload_touches_nothing (k : String) (file : Option String)
    (now : Nat) (db : Db) (u : User) (hk : k ≠ "")
    (h : findOne k db = some u) (hp : u.hasPaid = false)
    (hc : 2 ≤ u.uploads.length) :
    transcribe k file now db = ((403, none), db) :=
  transcribe_deny file now hk h hp hc

/-- C6 witness: an unpaid user with two stored uploads is denied and the
database is unchanged. -/
theorem C6_denied_upload_touches_nothing_witness :
    transcribe "u1" (some "c.wav") 7
        [⟨"u1", [⟨"a", "t", 0⟩, ⟨"b", "t", 1⟩], false⟩]
      = ((403, none), [⟨"u1", [⟨"a", "t", 0⟩, ⟨"b", "t", 1⟩], false⟩]) :=
  C6_denied_upload_touches_nothing "u1" (some "c.wav") 7
    [⟨"u1", [⟨"a", "t", 0⟩, ⟨"b", "t", 1⟩], false⟩]
    ⟨"u1", [⟨"a", "t", 0⟩, ⟨"b", "t", 1⟩], false⟩
    (by decide) (by rfl) (by rfl) (by decide)

/-- C8, counterexample to the claim as stated.  The claim says a
transcription request for an unknown identity key lazily creates the record
and succeeds.  At the concrete input — key `u1`, file `a.wav`, empty
database — the handler instead answers 404 and creates nothing: the
database stays empty (server.ts lines 127-130). -/
theorem C8_counterexample :
    (transcribe "u1" (some "a.wav") 0 []).1.1 = 404 ∧
    (transcribe "u1" (some "a.wav") 0 []).1.1 ≠ 200 ∧
    (transcribe "u1" (some "a.wav") 0 []).2 = [] := by
  decide

/-- C8, amended.  A transcription request whose identity key has no stored
record is answered 404 (NotFound) and the database is unchanged: the
transcribe handler never creates records lazily; records are created only
by the explicit create route or the identity-provider webhook. -/
theorem C8_unknown_user_not_found (k : String) (file : Option String)
    (now : Nat) (db : Db) (hk : k ≠ "") (h : findOne k db = none) :
    transcribe k file now db = ((404, none), db) :=
  transcribe_notfound file now hk h

/-- C8 witness: first-contact transcription attempt on an empty database is
a 404 no-op. -/
theorem C8_unknown_user_not_found_witness :
    transcribe "u1" (some "a.wav") 0 [] = ((404, none), []) :=
  C8_unknown_user_not_found "u1" (some "a.wav") 0 [] (by decide) (by rfl)

/-- C9, counterexample to the claim as stated.  The claim says a request
with an identity key and no file payload is answered 400 regardless of
`hasPaid` and upload count.  At the concrete input — stored user `u1` with
`hasPaid = false` and two uploads, request with no file — the handler
answers 403, not 400: the entitlement check precedes the file check
(server.ts lines 132-140). -/
theorem C9_counterexample :
    (transcribe "u1" none 0
        [⟨"u1", [⟨"a", "t", 0⟩, ⟨"b", "t", 1⟩], false⟩]).1.1 = 403 ∧
    (transcribe "u1" none 0
        [⟨"u1", [⟨"a", "t", 0⟩, ⟨"b", "t", 1⟩], false⟩]).1.1 ≠ 400 := by
  decide

/-- C9, amended.  A transcription request with an identity key of a stored
user and no file payload is answered 400 (no file) whenever the entitlement
gate passes (`hasPaid = true` or fewer than two uploads); the database is
unchanged.  When the gate denies, the handler answers 403 instead, because
the entitlement check runs before the file check. -/
theorem C9_no_file_bad_request (k : String) (now : Nat) (db : Db) (u : User)
    (hk : k ≠ "") (h : findOne k db = some u)
    (hgate : u.hasPaid = true ∨ u.uploads.length < 2) :
    transcribe k none now db = ((400, none), db) :=
  transcribe_nofile now hk h hgate

/-- C9 witness: a fresh unpaid user sending no file gets a 400 and the
database is unchanged. -/
theorem C9_no_file_bad_request_witness :
    transcribe "u1" none 0 [newUser "u1"] = ((400, none), [newUser "u1"]) :=
  C9_no_file_bad_request "u1" 0 [newUser "u1"] (newUser "u1")
    (by decide) (by rfl) (Or.inr (by decide))

/-- C10.  A checkout-session request with a non-empty identity key and a
successful provider call is answered 200 with the session URL even when no
record is stored for that key: the missing record is skipped silently — no
NotFound error and no record creation, the database is unchanged
(server.ts lines 231-237). -/
theorem C10_checkout_unknown_user_ok (k url : String) (db : Db)
    (hk : k ≠ "") (h : findOne k db = none) :
    createCheckoutSession k (some url) db = ((200, some url), db) := by
  simp only [createCheckoutSession, h]
  rw [if_neg hk]

/-- C10 witness: checkout for `u1` against the empty database returns the
session URL and leaves the database empty. -/
theorem C10_checkout_unknown_user_ok_witness :
    createCheckoutSession "u1" (some "https://pay.example/s") []
      = ((200, some "https://pay.example/s"), []) :=
  C10_checkout_unknown_user_ok "u1" "https://pay.example/s" []
    (by decide) (by rfl)

/-- C4.  A validly signed `checkout.session.completed` event whose metadata
identity key matches a stored user: processing it answers 200 and stores
the user with `hasPaid = true` and every other field unchanged; processing
the identical event a second time is idempotent — it answers 200 and
returns the database of the first processing unchanged, so `hasPaid` stays
`true`. -/
theorem C4_completed_event_idempotent (k : String) (db : Db) (u : User)
    (hk : k ≠ "") (h : findOne k db = some u) :
    paymentWebhook true (some ⟨"checkout.session.completed", some k⟩) db
      = (200, saveUser k { u with hasPaid := true } db) ∧
    findOne k (saveUser k { u with hasPaid := true } db)
      = some { u with hasPaid := true } ∧
    paymentWebhook true (some ⟨"checkout.session.completed", some k⟩)
        (saveUser k { u with hasPaid := true } db)
      = (200, saveUser k { u with hasPaid := true } db) := by
  have hid0 : u.clerkUserId = k := findOne_id h
  have hid : ({ u with hasPaid := true } : User).clerkUserId = k := hid0
  have h2 : findOne k (saveUser k { u with hasPaid := true } db)
      = some { u with hasPaid := true } :=
    findOne_saveUser_same h hid
  refine ⟨?_, h2, ?_⟩
  · simp only [paymentWebhook, h]
    rw [if_neg hk]
    simp
  · simp only [paymentWebhook, h2]
    rw [if_neg hk]
    simp [saveUser_saveUser]

/-- C4 witness: completing payment for a fresh stored user `u1` marks it
paid, and replaying the identical event changes nothing. -/
theorem C4_completed_event_idempotent_witness :
    paymentWebhook true (some ⟨"checkout.session.completed", some "u1"⟩)
        [newUser "u1"]
      = (200, saveUser "u1" { newUser "u1" with hasPaid := true }
          [newUser "u1"]) ∧
    findOne "u1" (saveUser "u1" { newUser "u1" with hasPaid := true }
        [newUser "u1"])
      = some { newUser "u1" with hasPaid := true } ∧
    paymentWebhook true (some ⟨"checkout.session.completed", some "u1"⟩)
        (saveUser "u1" { newUser "u1" with hasPaid := true } [newUser "u1"])
      = (200, saveUser "u1" { newUser "u1" with hasPaid := true }
          [newUser "u1"]) :=
  C4_completed_event_idempotent "u1" [newUser "u1"] (newUser "u1")
    (by decide) (by rfl)

/-! ### Upload-sequence lemmas -/

theorem runUploads_zero (k name : String) (now : Nat) (db : Db) :
    runUploads k name now 0 db = ([], db) := rfl

theorem runUploads_succ (k name : String) (now n : Nat) (db : Db) :
    runUploads k name now (n + 1) db
      = ((transcribe k (some name) now db).1.1 ::
          (runUploads k name now n (transcribe k (some name) now db).2).1,
         (runUploads k name now n (transcribe k (some name) now db).2).2) :=
  rfl

theorem transcribe_allow_state {k : String} (name : String) (now : Nat)
    {db : Db} {u : User} (hk : k ≠ "") (h : findOne k db = some u)
    (hgate : u.hasPaid = true ∨ u.uploads.length < 2) :
    (transcribe k (some name) now db).1.1 = 200 ∧
    ∃ u', findOne k (transcribe k (some name) now db).2 = some u' ∧
      u'.hasPaid = u.hasPaid ∧ u'.uploads.length = u.uploads.length + 1 := by
  have e := transcribe_allow name now hk h hgate
  refine ⟨by rw [e], ?_⟩
  refine ⟨{ u with uploads := u.uploads ++
      [⟨name, "Mock transcription for file: " ++ name, now⟩] }, ?_, rfl, by simp⟩
  have hid : u.clerkUserId = k := findOne_id h
  rw [e]
  exact findOne_saveUser_same h hid

theorem runUploads_fresh_unpaid {k : String} (name : String) (now : Nat)
    {db : Db} {u : User} (hk : k ≠ "") (h : findOne k db = some u)
    (hp : u.hasPaid = false) (hupl : u.uploads = []) :
    (runUploads k name now 3 db).1 = [200, 200, 403] := by
  obtain ⟨s1, u1, hf1, hp1, hl1⟩ :=
    transcribe_allow_state name now hk h (Or.inr (by rw [hupl]; decide))
  obtain ⟨s2, u2, hf2, hp2, hl2⟩ :=
    transcribe_allow_state name now hk hf1
      (Or.inr (by rw [hl1, hupl]; decide))
  have d3 := transcribe_deny (some name) now hk hf2
    (by rw [hp2, hp1, hp]) (by rw [hl2, hl1, hupl]; decide)
  rw [show (3 : Nat) = 2 + 1 from rfl, runUploads_succ]
  dsimp only
  rw [s1, show (2 : Nat) = 1 + 1 from rfl, runUploads_succ]
  dsimp only
  rw [s2, show (1 : Nat) = 0 + 1 from rfl, runUploads_succ]
  dsimp only
  rw [d3, runUploads_zero]

theorem runUploads_paid {k : String} (name : String) (now : Nat)
    (hk : k ≠ "") :
    ∀ (n : Nat) (db : Db) (u : User), findOne k db = some u →
      u.hasPaid = true →
      (runUploads k name now n db).1 = List.replicate n 200 := by
  intro n
  induction n with
  | zero => intro db u _ _; rfl
  | succ m ih =>
    intro db u h hp
    obtain ⟨s1, u1, hf1, hp1, _⟩ :=
      transcribe_allow_state name now hk h (Or.inl hp)
    rw [runUploads_succ]
    dsimp only
    rw [s1, ih _ _ hf1 (by rw [hp1, hp]), List.replicate_succ]

/-- C2.  The entitlement gate of the transcribe handler: with a stored user
and a file present, the request succeeds (200) exactly when `hasPaid` is
true or the stored upload count is below 2, and is denied (403) exactly
otherwise.  Consequently a user with `hasPaid = false` and no uploads gets
statuses 200, 200, 403 on three consecutive uploads, and a user with
`hasPaid = true` gets 200 on every one of `n` consecutive uploads, for any
`n`. -/
theorem C2_entitlement_gate (k name : String) (now : Nat) (db : Db)
    (u : User) (hk : k ≠ "") (h : findOne k db = some u) :
    ((transcribe k (some name) now db).1.1 = 200 ↔
      (u.hasPaid = true ∨ u.uploads.length < 2)) ∧
    ((transcribe k (some name) now db).1.1 = 403 ↔
      ¬ (u.hasPaid = true ∨ u.uploads.length < 2)) ∧
    (u.hasPaid = false → u.uploads = [] →
      (runUploads k name now 3 db).1 = [200, 200, 403]) ∧
    (u.hasPaid = true → ∀ n, (runUploads k name now n db).1
      = List.replicate n 200) := by
  refine ⟨?_, ?_, ?_, ?_⟩
  · by_cases hgate : (u.hasPaid = true ∨ u.uploads.length < 2)
    · rw [transcribe_allow name now hk h hgate]
      simp [hgate]
    · have hp : u.hasPaid = false := by
        cases hpb : u.hasPaid with
        | false => rfl
        | true => exact absurd (Or.inl hpb) hgate
      have hc : 2 ≤ u.uploads.length :=
        Nat.le_of_not_lt (fun hl => hgate (Or.inr hl))
      rw [transcribe_deny (some name) now hk h hp hc]
      simp [hgate]
  · by_cases hgate : (u.hasPaid = true ∨ u.uploads.length < 2)
    · rw [transcribe_allow name now hk h hgate]
      simp [hgate]
    · have hp : u.hasPaid = false := by
        cases hpb : u.hasPaid with
        | false => rfl
        | true => exact absurd (Or.inl hpb) hgate
      have hc : 2 ≤ u.uploads.length :=
        Nat.le_of_not_lt (fun hl => hgate (Or.inr hl))
      rw [transcribe_deny (some name) now hk h hp hc]
      simp [hgate]
  · intro hp hupl
    exact runUploads_fresh_unpaid name now hk h hp hupl
  · intro hp n
    exact runUploads_paid name now hk n db u h hp

/-- C2 witness: for the fresh unpaid user `u1`, the gate equivalences hold
and three consecutive uploads of `a.wav` give statuses 200, 200, 403. -/
theorem C2_entitlement_gate_witness :
    (((transcribe "u1" (some "a.wav") 0 [newUser "u1"]).1.1 = 200 ↔
      ((newUser "u1").hasPaid = true ∨ (newUser "u1").uploads.length < 2)) ∧
    (((transcribe "u1" (some "a.wav") 0 [newUser "u1"]).1.1 = 403 ↔
      ¬ ((newUser "u1").hasPaid = true ∨
          (newUser "u1").uploads.length < 2))) ∧
    ((newUser "u1").hasPaid = false → (newUser "u1").uploads = [] →
      (runUploads "u1" "a.wav" 0 3 [newUser "u1"]).1 = [200, 200, 403]) ∧
    ((newUser "u1").hasPaid = true → ∀ n,
      (runUploads "u1" "a.wav" 0 n [newUser "u1"]).1
        = List.replicate n 200)) :=
  C2_entitlement_gate "u1" "a.wav" 0 [newUser "u1"] (newUser "u1")
    (by decide) (by rfl)

/-- C7.  `hasPaid` is monotonic.  Newly created records have
`hasPaid = false` (the schema default), and every operation of the system —
user creation, identity-provider webhook, upload, payment webhook,
checkout-session creation — preserves paid users: whenever a user is stored
with `hasPaid = true` before the operation, it is still stored with
`hasPaid = true` after it; no operation resets the flag to false. -/
theorem C7_hasPaid_monotonic :
    (∀ k, (newUser k).hasPaid = false) ∧
    (∀ k db, paidPreserved db (createUser k db).2) ∧
    (∀ t d db, paidPreserved db (clerkWebhook t d db).2) ∧
    (∀ k f now db, paidPreserved db (transcribe k f now db).2) ∧
    (∀ s e db, paidPreserved db (paymentWebhook s e db).2) ∧
    (∀ k s db, paidPreserved db (createCheckoutSession k s db).2) := by
  refine ⟨fun _ => rfl, ?_, ?_, ?_, ?_, ?_⟩
  · intro k db
    unfold createUser
    split
    · exact paidPreserved_refl db
    · split
      · exact paidPreserved_refl db
      · exact paidPreserved_insert _ db
  · intro t d db
    unfold clerkWebhook
    split
    · split
      · exact paidPreserved_refl db
      · exact paidPreserved_insert _ db
    · exact paidPreserved_refl db
  · intro k f now db
    unfold transcribe
    split
    · exact paidPreserved_refl db
    · split
      · exact paidPreserved_refl db
      · rename_i user heq
        split
        · exact paidPreserved_refl db
        · split
          · exact paidPreserved_refl db
          · have hid : user.clerkUserId = k := findOne_id heq
            exact paidPreserved_save heq hid (fun hp => hp)
  · intro s e db
    unfold paymentWebhook
    split
    · exact paidPreserved_refl db
    · split
      · exact paidPreserved_refl db
      · split
        · split
          · split
            · exact paidPreserved_refl db
            · split
              · rename_i user heq
                have hid := findOne_id heq
                exact paidPreserved_save heq hid (fun _ => rfl)
              · exact paidPreserved_refl db
          · exact paidPreserved_refl db
        · exact paidPreserved_refl db
  · intro k s db
    unfold createCheckoutSession
    split
    · exact paidPreserved_refl db
    · split
      · exact paidPreserved_refl db
      · split
        · rename_i user heq
          have hid : user.clerkUserId = k := findOne_id heq
          exact paidPreserved_save heq hid (fun _ => rfl)
        · exact paidPreserved_refl db

/-- C7 witness: a fresh record is unpaid, and a paid stored user `u1`
survives (still paid) a checkout-session call made by another key. -/
theorem C7_hasPaid_monotonic_witness :
    (newUser "u1").hasPaid = false ∧
    (∃ u', findOne "u1"
        (createCheckoutSession "u2" (some "https://pay.example/s")
          [{ clerkUserId := "u1", uploads := [], hasPaid := true }]).2
        = some u' ∧ u'.hasPaid = true) :=
  ⟨C7_hasPaid_monotonic.1 "u1",
   C7_hasPaid_monotonic.2.2.2.2.2 "u2" (some "https://pay.example/s")
     [{ clerkUserId := "u1", uploads := [], hasPaid := true }]
     "u1" { clerkUserId := "u1", uploads := [], hasPaid := true }
     (by rfl) (by rfl)⟩
